import Mathlib

/-!
Verification of the `waveguides` library: a shallow embedding of
`materials.py` (material constant lookup) and `wg.py` (coaxial, two-wire
and parallel-plate waveguide models), together with theorems settling the
specified properties.

Modelling conventions:
* Python floats are modelled as real numbers `ℝ`, complex values as `ℂ`.
* `math.pi` and `np.pi` are both the same double; they are modelled as `Real.pi`.
* Fallible computations return `Except PyErr _`.  The constructors of
  `PyErr` name the Python exception that the corresponding line raises;
  the extra constructor `nonFinite` models numpy emitting a warning and
  producing a non-finite (`nan` / `inf`) value instead of raising — e.g.
  `np.sqrt` of a negative number, or division by zero on numpy scalars.
-/

namespace Waveguides

/-- Vacuum permittivity `scipy.constants.epsilon_0` (CODATA 2018 value used
by scipy). -/
def eps_0 : ℝ := 8.8541878128e-12

/-- Vacuum permeability `scipy.constants.mu_0` (CODATA 2018 value used by
scipy). -/
def mu_0 : ℝ := 1.25663706212e-6

/-- One step of Python `str.lower()` on a single character, restricted to
ASCII: an upper-case letter (code 65–90) is shifted by 32, anything else is
unchanged.  Every key of the material tables is pure ASCII, so this is the
semantics `material.lower()` has on all inputs the tables can match. -/
def pyLowerChar (c : Char) : Char :=
  if 65 ≤ c.toNat ∧ c.toNat ≤ 90 then Char.ofNat (c.toNat + 32) else c

/-- Python `str.lower()` (ASCII fragment), applied characterwise. -/
def pyLower (s : String) : String := ⟨s.data.map pyLowerChar⟩

/-- Outcomes of the Python code other than a normal value.  The first four
name the exception the corresponding line raises.  `nonFinite` models numpy
producing a `nan`/`inf` value (with a warning, not an exception).  The last
two, `unknownMaterialError` and `invalidGeometryError`, are the error kinds
the specification names; no such exception class exists anywhere in the
code, so a result can be compared against them to settle whether the code
ever produces them. -/
inductive PyErr where
  | typeError
  | valueError
  | zeroDivisionError
  | attributeError
  | nonFinite
  | unknownMaterialError
  | invalidGeometryError
deriving DecidableEq

/-- `materials.cond(material)`: conductivity table (Pozar), matched against
`material.lower()` key by key in source order.  The Python fall-through
branch prints an error message and returns `None`; it is modelled as
`none`. -/
def cond (material : String) : Option ℝ :=
  let m := pyLower material
  if m = "cu" ∨ m = "copper" then some 5.813e7
  else if m = "pec" ∨ m = "perfect_electric_conductor" then some 1e30
  else if m = "au" ∨ m = "gold" then some 4.098e7
  else if m = "al" ∨ m = "aluminium" ∨ m = "aluminum" then some 3.816e7
  else if m = "ag" ∨ m = "silver" then some 6.173e7
  else if m = "brass" then some 2.564e7
  else if m = "bronze" then some 1.00e7
  else if m = "chromium" ∨ m = "cr" then some 3.846e7
  else if m = "water" ∨ m = "h2o" then some 2e-4
  else if m = "germanium" ∨ m = "ge" then some 2.2e6
  else if m = "graphite" then some 7e4
  else if m = "iron" ∨ m = "fe" then some 1.03e7
  else if m = "mercury" ∨ m = "hg" then some 1.04e6
  else if m = "lead" ∨ m = "pb" then some 4.56e6
  else if m = "nichrome" then some 1.0e6
  else if m = "nickel" ∨ m = "ni" then some 1.449e7
  else if m = "platinum" ∨ m = "pt" then some 9.52e6
  else if m = "seawater" then some 4
  else if m = "silicon" ∨ m = "si" then some 4.4e-4
  else if m = "steel_silicon" then some 2e6
  else if m = "steel_stainless" then some 1.1e6
  else if m = "solder" then some 7e6
  else if m = "tungsten" ∨ m = "w" then some 1.825e7
  else if m = "zinc" ∨ m = "zn" then some 1.67e7
  else none

/-- `materials.dielec_const(material)`: complex permittivity table (Pozar),
matched against `material.lower()` in source order.  Each entry is
`complex(eps_r*eps_0, -eps_r*eps_0*tan_delta)`.  The fall-through branch
prints an error message and returns `None`, modelled as `none`. -/
def dielec_const (material : String) : Option ℂ :=
  let m := pyLower material
  if m = "pe" ∨ m = "polyethylene" then some ⟨2.25*eps_0, -(2.25*eps_0*0.0004)⟩
  else if m = "vacuum" ∨ m = "vac" then some ⟨1*eps_0, 0⟩
  else if m = "gaas" ∨ m = "galliumarsenide" then some ⟨13*eps_0, -(13*eps_0*0.006)⟩
  else if m = "teflon" ∨ m = "ptfe" then some ⟨2.08*eps_0, -(2.08*eps_0*0.0004)⟩
  else if m = "silicon" ∨ m = "si" then some ⟨11.9*eps_0, -(11.9*eps_0*0.004)⟩
  else if m = "polystyrene" ∨ m = "ps" then some ⟨2.54*eps_0, -(2.54*eps_0*0.00033)⟩
  else none

theorem pyLowerChar_idem (c : Char) : pyLowerChar (pyLowerChar c) = pyLowerChar c := by
  unfold pyLowerChar
  by_cases h : 65 ≤ c.toNat ∧ c.toNat ≤ 90
  · rw [if_pos h]
    obtain ⟨h1, h2⟩ := h
    set n := c.toNat with hn
    clear hn
    interval_cases n <;> decide
  · rw [if_neg h, if_neg h]

theorem pyLower_idem (s : String) : pyLower (pyLower s) = pyLower s := by
  unfold pyLower
  refine congrArg String.mk ?_
  show (s.data.map pyLowerChar).map pyLowerChar = s.data.map pyLowerChar
  rw [List.map_map]
  exact List.map_congr_left fun c _ => pyLowerChar_idem c

theorem cond_cu : cond "cu" = some 5.813e7 := rfl

theorem cond_copper : cond "copper" = some 5.813e7 := rfl

theorem cond_cap_cu : cond "Cu" = some 5.813e7 := rfl

theorem cond_unobtainium : cond "unobtainium" = none := rfl

theorem dielec_vac : dielec_const "vac" = some ⟨1*eps_0, 0⟩ := rfl

theorem dielec_teflon : dielec_const "teflon" = some ⟨2.08*eps_0, -(2.08*eps_0*0.0004)⟩ := rfl

theorem dielec_unobtainium : dielec_const "unobtainium" = none := rfl

/-- `math.acosh`: inverse hyperbolic cosine, `log (x + sqrt (x^2 - 1))`.
Python raises `ValueError: math domain error` for arguments below 1; the
callers below guard that case explicitly. -/
noncomputable def arcosh (x : ℝ) : ℝ := Real.log (x + Real.sqrt (x^2 - 1))

/-- `np.sqrt` on a complex operand: the principal complex square root
(branch cut along the negative real axis), i.e. `exp (log z / 2)` with the
principal logarithm. -/
noncomputable def csqrt (z : ℂ) : ℂ := z ^ (1/2 : ℂ)

/-- The line `Rs = np.sqrt(w*self.mu/(2*self.sigma))` shared verbatim by
every query method of every waveguide class (surface resistance). -/
noncomputable def Rs_line (mu sigma w : ℝ) : ℝ := Real.sqrt (w*mu/(2*sigma))

/-- State of a `COAX` instance after `__init__` has completed.  `sigma` is
an `Option` because `materials.cond` returns `None` for an unknown metal
and `__init__` stores that `None` without complaint. -/
structure COAX where
  a : ℝ
  b : ℝ
  sigma : Option ℝ
  eps : ℂ
  mu : ℝ
  L : ℝ
  C : ℝ

/-- `COAX.__init__(a, b, metal, dielec)`, with the error behaviour of each
line in execution order: `cond`/`dielec_const` never raise (they print and
return `None`); the `L` line raises `ZeroDivisionError` on `b/a` when
`a == 0` and `ValueError` from `math.log` when `b/a <= 0`; the `C` line
raises `AttributeError` on `self.eps.real` when the dielectric was unknown
(`eps` is `None`). -/
noncomputable def COAX.init (a b : ℝ) (metal dielec : String) : Except PyErr COAX :=
  if a = 0 then .error .zeroDivisionError
  else if b/a ≤ 0 then .error .valueError
  else
    match dielec_const dielec with
    | none => .error .attributeError
    | some eps =>
        .ok ⟨a, b, cond metal, eps, 1*mu_0, (1*mu_0)*Real.log (b/a)/(2*Real.pi),
             2*Real.pi*eps.re/Real.log (b/a)⟩

/-- The line `R = Rs*(1/self.a + 1/self.b)/(2*math.pi)` of the `COAX`
query methods. -/
noncomputable def COAX.Rq (m : COAX) (sigma w : ℝ) : ℝ :=
  Rs_line m.mu sigma w * (1/m.a + 1/m.b)/(2*Real.pi)

/-- The line `G = 2*math.pi*w*self.eps.imag/math.log(self.b/self.a)` of
the `COAX` query methods.  Note that it uses the signed imaginary part of
the stored permittivity (which the material table fills with `-eps2`). -/
noncomputable def COAX.Gq (m : COAX) (w : ℝ) : ℝ :=
  2*Real.pi*w*m.eps.im/Real.log (m.b/m.a)

/-- `COAX.get_z0(freq)` for a scalar frequency.  Error cases in the order
Python meets them: `2*self.sigma` with `sigma = None` raises `TypeError`;
`1/self.a + 1/self.b` raises `ZeroDivisionError` on a zero radius;
`math.log(self.b/self.a)` raises `ValueError` outside its domain;
`np.sqrt` of a negative (or a zero `sigma` denominator) yields a
non-finite value, as does the final complex division when its denominator
is exactly zero. -/
noncomputable def COAX.get_z0 (m : COAX) (freq : ℝ) : Except PyErr ℂ :=
  match m.sigma with
  | none => .error .typeError
  | some sigma =>
      if m.a = 0 ∨ m.b = 0 then .error .zeroDivisionError
      else if m.b/m.a ≤ 0 then .error .valueError
      else if sigma = 0 ∨ (2*Real.pi*freq)*m.mu/(2*sigma) < 0 then .error .nonFinite
      else if ((m.Gq (2*Real.pi*freq) : ℝ) : ℂ) + Complex.I*((2*Real.pi*freq : ℝ) : ℂ)*(m.C : ℝ) = 0 then
        .error .nonFinite
      else .ok (csqrt ((((m.Rq sigma (2*Real.pi*freq) : ℝ) : ℂ) + Complex.I*((2*Real.pi*freq : ℝ) : ℂ)*(m.L : ℝ))/
        (((m.Gq (2*Real.pi*freq) : ℝ) : ℂ) + Complex.I*((2*Real.pi*freq : ℝ) : ℂ)*(m.C : ℝ))))

/-- `COAX.get_gamma(freq)` for a scalar frequency; same intermediate lines
as `get_z0` but a product instead of a quotient, so no division-by-zero
case. -/
noncomputable def COAX.get_gamma (m : COAX) (freq : ℝ) : Except PyErr ℂ :=
  match m.sigma with
  | none => .error .typeError
  | some sigma =>
      if m.a = 0 ∨ m.b = 0 then .error .zeroDivisionError
      else if m.b/m.a ≤ 0 then .error .valueError
      else if sigma = 0 ∨ (2*Real.pi*freq)*m.mu/(2*sigma) < 0 then .error .nonFinite
      else .ok (csqrt ((((m.Rq sigma (2*Real.pi*freq) : ℝ) : ℂ) + Complex.I*((2*Real.pi*freq : ℝ) : ℂ)*(m.L : ℝ))*
        (((m.Gq (2*Real.pi*freq) : ℝ) : ℂ) + Complex.I*((2*Real.pi*freq : ℝ) : ℂ)*(m.C : ℝ))))

/-- `COAX.get_alpha(freq) = self.get_gamma(freq).real`. -/
noncomputable def COAX.get_alpha (m : COAX) (freq : ℝ) : Except PyErr ℝ :=
  (m.get_gamma freq).map Complex.re

/-- `COAX.get_beta(freq) = self.get_gamma(freq).imag`. -/
noncomputable def COAX.get_beta (m : COAX) (freq : ℝ) : Except PyErr ℝ :=
  (m.get_gamma freq).map Complex.im

/-- State of a `TWWG` (two-wire) instance after `__init__` has completed. -/
structure TWWG where
  S : ℝ
  a : ℝ
  sigma : Option ℝ
  eps : ℂ
  mu : ℝ
  L : ℝ
  C : ℝ

/-- `TWWG.__init__(S, a, metal, dielec)` in execution order: the `L` line
computes `math.acosh(S/(2*a))`, raising `ZeroDivisionError` when `a == 0`
and `ValueError` (math domain error) when `S/(2*a) < 1`; the `C` line
raises `AttributeError` on `self.eps.real` for an unknown dielectric and
`ZeroDivisionError` when `math.acosh(S/(2*a)) == 0`, i.e. when `S = 2*a`.
There is no geometry guard of its own anywhere in the constructor. -/
noncomputable def TWWG.init (S a : ℝ) (metal dielec : String) : Except PyErr TWWG :=
  if a = 0 then .error .zeroDivisionError
  else if S/(2*a) < 1 then .error .valueError
  else
    match dielec_const dielec with
    | none => .error .attributeError
    | some eps =>
        if arcosh (S/(2*a)) = 0 then .error .zeroDivisionError
        else
          .ok ⟨S, a, cond metal, eps, 1*mu_0, (1*mu_0)*arcosh (S/(2*a))/Real.pi,
               Real.pi*eps.re/arcosh (S/(2*a))⟩

/-- The line `R = Rs/(np.pi*self.a)` of the `TWWG` query methods (numpy
scalar division: a zero `a` gives a non-finite value, not an exception). -/
noncomputable def TWWG.Rq (m : TWWG) (sigma w : ℝ) : ℝ :=
  Rs_line m.mu sigma w/(Real.pi*m.a)

/-- The line `G = (np.pi*w*self.eps.imag)/np.math.acosh(self.S/(2*self.a))`
of the `TWWG` query methods (again with the signed imaginary part of the
stored permittivity). -/
noncomputable def TWWG.Gq (m : TWWG) (w : ℝ) : ℝ :=
  Real.pi*w*m.eps.im/arcosh (m.S/(2*m.a))

/-- `TWWG.get_z0(freq)` for a scalar frequency.  Error cases in Python
order: `2*self.sigma` with `None` raises `TypeError`; in the `G` line
`self.S/(2*self.a)` raises `ZeroDivisionError` when `a == 0` and
`np.math.acosh` raises `ValueError` below 1; a zero `acosh` denominator, a
zero/negative `sigma`, or a zero final complex denominator yield
non-finite numpy values. -/
noncomputable def TWWG.get_z0 (m : TWWG) (freq : ℝ) : Except PyErr ℂ :=
  match m.sigma with
  | none => .error .typeError
  | some sigma =>
      if m.a = 0 then .error .zeroDivisionError
      else if m.S/(2*m.a) < 1 then .error .valueError
      else if arcosh (m.S/(2*m.a)) = 0 ∨ sigma = 0 ∨ (2*Real.pi*freq)*m.mu/(2*sigma) < 0 then
        .error .nonFinite
      else if ((m.Gq (2*Real.pi*freq) : ℝ) : ℂ) + Complex.I*((2*Real.pi*freq : ℝ) : ℂ)*(m.C : ℝ) = 0 then
        .error .nonFinite
      else .ok (csqrt ((((m.Rq sigma (2*Real.pi*freq) : ℝ) : ℂ) + Complex.I*((2*Real.pi*freq : ℝ) : ℂ)*(m.L : ℝ))/
        (((m.Gq (2*Real.pi*freq) : ℝ) : ℂ) + Complex.I*((2*Real.pi*freq : ℝ) : ℂ)*(m.C : ℝ))))

/-- `TWWG.get_gamma(freq)` for a scalar frequency. -/
noncomputable def TWWG.get_gamma (m : TWWG) (freq : ℝ) : Except PyErr ℂ :=
  match m.sigma with
  | none => .error .typeError
  | some sigma =>
      if m.a = 0 then .error .zeroDivisionError
      else if m.S/(2*m.a) < 1 then .error .valueError
      else if arcosh (m.S/(2*m.a)) = 0 ∨ sigma = 0 ∨ (2*Real.pi*freq)*m.mu/(2*sigma) < 0 then
        .error .nonFinite
      else .ok (csqrt ((((m.Rq sigma (2*Real.pi*freq) : ℝ) : ℂ) + Complex.I*((2*Real.pi*freq : ℝ) : ℂ)*(m.L : ℝ))*
        (((m.Gq (2*Real.pi*freq) : ℝ) : ℂ) + Complex.I*((2*Real.pi*freq : ℝ) : ℂ)*(m.C : ℝ))))

/-- `TWWG.get_alpha(freq) = self.get_gamma(freq).real`. -/
noncomputable def TWWG.get_alpha (m : TWWG) (freq : ℝ) : Except PyErr ℝ :=
  (m.get_gamma freq).map Complex.re

/-- `TWWG.get_beta(freq) = self.get_gamma(freq).imag`. -/
noncomputable def TWWG.get_beta (m : TWWG) (freq : ℝ) : Except PyErr ℝ :=
  (m.get_gamma freq).map Complex.im

/-- State of a `PPWG` (parallel-plate) instance after `__init__`. -/
structure PPWG where
  S : ℝ
  T : ℝ
  sigma : Option ℝ
  eps : ℂ
  mu : ℝ
  L : ℝ
  C : ℝ

/-- `PPWG.__init__(S, T, metal, dielec)` in execution order: the `L` line
`self.mu*S/T` raises `ZeroDivisionError` when `T == 0`; the `C` line
raises `AttributeError` on `self.eps.real` for an unknown dielectric and
`ZeroDivisionError` when `S == 0`. -/
noncomputable def PPWG.init (S T : ℝ) (metal dielec : String) : Except PyErr PPWG :=
  if T = 0 then .error .zeroDivisionError
  else
    match dielec_const dielec with
    | none => .error .attributeError
    | some eps =>
        if S = 0 then .error .zeroDivisionError
        else
          .ok ⟨S, T, cond metal, eps, 1*mu_0, (1*mu_0)*S/T, eps.re*T/S⟩

/-- The line `R = 2*Rs/self.T` of the `PPWG` query methods (numpy scalar
division: `T == 0` gives a non-finite value, not an exception). -/
noncomputable def PPWG.Rq (m : PPWG) (sigma w : ℝ) : ℝ :=
  2*Rs_line m.mu sigma w/m.T

/-- The line `G = w*self.eps.imag*self.T/self.S` of the `PPWG` query
methods. -/
noncomputable def PPWG.Gq (m : PPWG) (w : ℝ) : ℝ :=
  w*m.eps.im*m.T/m.S

/-- `PPWG.get_z0(freq)` for a scalar frequency.  All divisions here are on
numpy scalars, so invalid ones yield non-finite values rather than
exceptions. -/
noncomputable def PPWG.get_z0 (m : PPWG) (freq : ℝ) : Except PyErr ℂ :=
  match m.sigma with
  | none => .error .typeError
  | some sigma =>
      if m.T = 0 ∨ m.S = 0 ∨ sigma = 0 ∨ (2*Real.pi*freq)*m.mu/(2*sigma) < 0 then .error .nonFinite
      else if ((m.Gq (2*Real.pi*freq) : ℝ) : ℂ) + Complex.I*((2*Real.pi*freq : ℝ) : ℂ)*(m.C : ℝ) = 0 then
        .error .nonFinite
      else .ok (csqrt ((((m.Rq sigma (2*Real.pi*freq) : ℝ) : ℂ) + Complex.I*((2*Real.pi*freq : ℝ) : ℂ)*(m.L : ℝ))/
        (((m.Gq (2*Real.pi*freq) : ℝ) : ℂ) + Complex.I*((2*Real.pi*freq : ℝ) : ℂ)*(m.C : ℝ))))

/-- `PPWG.get_gamma(freq)` for a scalar frequency. -/
noncomputable def PPWG.get_gamma (m : PPWG) (freq : ℝ) : Except PyErr ℂ :=
  match m.sigma with
  | none => .error .typeError
  | some sigma =>
      if m.T = 0 ∨ m.S = 0 ∨ sigma = 0 ∨ (2*Real.pi*freq)*m.mu/(2*sigma) < 0 then .error .nonFinite
      else .ok (csqrt ((((m.Rq sigma (2*Real.pi*freq) : ℝ) : ℂ) + Complex.I*((2*Real.pi*freq : ℝ) : ℂ)*(m.L : ℝ))*
        (((m.Gq (2*Real.pi*freq) : ℝ) : ℂ) + Complex.I*((2*Real.pi*freq : ℝ) : ℂ)*(m.C : ℝ))))

/-- `PPWG.get_alpha(freq) = self.get_gamma(freq).real`. -/
noncomputable def PPWG.get_alpha (m : PPWG) (freq : ℝ) : Except PyErr ℝ :=
  (m.get_gamma freq).map Complex.re

/-- `PPWG.get_beta(freq) = self.get_gamma(freq).imag`. -/
noncomputable def PPWG.get_beta (m : PPWG) (freq : ℝ) : Except PyErr ℝ :=
  (m.get_gamma freq).map Complex.im

/-- `COAX.get_z0` applied to a numpy array of frequencies: every arithmetic
step broadcasts element-wise, so the whole query is the element-wise image
of the scalar query. -/
noncomputable def COAX.get_z0_list (m : COAX) (freq : List ℝ) : List (Except PyErr ℂ) :=
  freq.map m.get_z0

/-- `COAX.get_gamma` on an array of frequencies (element-wise). -/
noncomputable def COAX.get_gamma_list (m : COAX) (freq : List ℝ) : List (Except PyErr ℂ) :=
  freq.map m.get_gamma

/-- `COAX.get_alpha` on an array of frequencies (element-wise). -/
noncomputable def COAX.get_alpha_list (m : COAX) (freq : List ℝ) : List (Except PyErr ℝ) :=
  freq.map m.get_alpha

/-- `COAX.get_beta` on an array of frequencies (element-wise). -/
noncomputable def COAX.get_beta_list (m : COAX) (freq : List ℝ) : List (Except PyErr ℝ) :=
  freq.map m.get_beta

/-- `TWWG.get_z0` on an array of frequencies (element-wise). -/
noncomputable def TWWG.get_z0_list (m : TWWG) (freq : List ℝ) : List (Except PyErr ℂ) :=
  freq.map m.get_z0

/-- `TWWG.get_gamma` on an array of frequencies (element-wise). -/
noncomputable def TWWG.get_gamma_list (m : TWWG) (freq : List ℝ) : List (Except PyErr ℂ) :=
  freq.map m.get_gamma

/-- `TWWG.get_alpha` on an array of frequencies (element-wise). -/
noncomputable def TWWG.get_alpha_list (m : TWWG) (freq : List ℝ) : List (Except PyErr ℝ) :=
  freq.map m.get_alpha

/-- `TWWG.get_beta` on an array of frequencies (element-wise). -/
noncomputable def TWWG.get_beta_list (m : TWWG) (freq : List ℝ) : List (Except PyErr ℝ) :=
  freq.map m.get_beta

/-- `PPWG.get_z0` on an array of frequencies (element-wise). -/
noncomputable def PPWG.get_z0_list (m : PPWG) (freq : List ℝ) : List (Except PyErr ℂ) :=
  freq.map m.get_z0

/-- `PPWG.get_gamma` on an array of frequencies (element-wise). -/
noncomputable def PPWG.get_gamma_list (m : PPWG) (freq : List ℝ) : List (Except PyErr ℂ) :=
  freq.map m.get_gamma

/-- `PPWG.get_alpha` on an array of frequencies (element-wise). -/
noncomputable def PPWG.get_alpha_list (m : PPWG) (freq : List ℝ) : List (Except PyErr ℝ) :=
  freq.map m.get_alpha

/-- `PPWG.get_beta` on an array of frequencies (element-wise). -/
noncomputable def PPWG.get_beta_list (m : PPWG) (freq : List ℝ) : List (Except PyErr ℝ) :=
  freq.map m.get_beta

/-- `COAX.get_z0` with the instance state threaded explicitly: the method
body assigns to no attribute of `self`, so the post-state is the pre-state
unchanged. -/
noncomputable def COAX.get_z0_s (m : COAX) (freq : ℝ) : Except PyErr ℂ × COAX :=
  (m.get_z0 freq, m)

/-- `COAX.get_gamma` with the instance state threaded explicitly (no
attribute of `self` is assigned in the body). -/
noncomputable def COAX.get_gamma_s (m : COAX) (freq : ℝ) : Except PyErr ℂ × COAX :=
  (m.get_gamma freq, m)

/-- `COAX.get_alpha` with the instance state threaded explicitly. -/
noncomputable def COAX.get_alpha_s (m : COAX) (freq : ℝ) : Except PyErr ℝ × COAX :=
  (m.get_alpha freq, m)

/-- `COAX.get_beta` with the instance state threaded explicitly. -/
noncomputable def COAX.get_beta_s (m : COAX) (freq : ℝ) : Except PyErr ℝ × COAX :=
  (m.get_beta freq, m)

/-- `TWWG.get_z0` with the instance state threaded explicitly. -/
noncomputable def TWWG.get_z0_s (m : TWWG) (freq : ℝ) : Except PyErr ℂ × TWWG :=
  (m.get_z0 freq, m)

/-- `TWWG.get_gamma` with the instance state threaded explicitly. -/
noncomputable def TWWG.get_gamma_s (m : TWWG) (freq : ℝ) : Except PyErr ℂ × TWWG :=
  (m.get_gamma freq, m)

/-- `TWWG.get_alpha` with the instance state threaded explicitly. -/
noncomputable def TWWG.get_alpha_s (m : TWWG) (freq : ℝ) : Except PyErr ℝ × TWWG :=
  (m.get_alpha freq, m)

/-- `TWWG.get_beta` with the instance state threaded explicitly. -/
noncomputable def TWWG.get_beta_s (m : TWWG) (freq : ℝ) : Except PyErr ℝ × TWWG :=
  (m.get_beta freq, m)

/-- `PPWG.get_z0` with the instance state threaded explicitly. -/
noncomputable def PPWG.get_z0_s (m : PPWG) (freq : ℝ) : Except PyErr ℂ × PPWG :=
  (m.get_z0 freq, m)

/-- `PPWG.get_gamma` with the instance state threaded explicitly. -/
noncomputable def PPWG.get_gamma_s (m : PPWG) (freq : ℝ) : Except PyErr ℂ × PPWG :=
  (m.get_gamma freq, m)

/-- `PPWG.get_alpha` with the instance state threaded explicitly. -/
noncomputable def PPWG.get_alpha_s (m : PPWG) (freq : ℝ) : Except PyErr ℝ × PPWG :=
  (m.get_alpha freq, m)

/-- `PPWG.get_beta` with the instance state threaded explicitly. -/
noncomputable def PPWG.get_beta_s (m : PPWG) (freq : ℝ) : Except PyErr ℝ × PPWG :=
  (m.get_beta freq, m)

/-- The coaxial model of `wg_test.py`: `COAX(1e-3, 4e-3, 'Cu', 'vac')`,
written out field by field. -/
noncomputable def coaxCuVac : COAX :=
  ⟨1e-3, 4e-3, some 5.813e7, ⟨1*eps_0, 0⟩, 1*mu_0,
   (1*mu_0)*Real.log (4e-3/1e-3)/(2*Real.pi),
   2*Real.pi*(1*eps_0)/Real.log (4e-3/1e-3)⟩

/-- The two-wire model of `wg_test.py`: `TWWG(3.5e-3, 1e-3, 'Cu', 'vac')`. -/
noncomputable def twwgCuVac : TWWG :=
  ⟨3.5e-3, 1e-3, some 5.813e7, ⟨1*eps_0, 0⟩, 1*mu_0,
   (1*mu_0)*arcosh (3.5e-3/(2*1e-3))/Real.pi,
   Real.pi*(1*eps_0)/arcosh (3.5e-3/(2*1e-3))⟩

/-- The parallel-plate model of `wg_test.py`: `PPWG(3e-3, 3e-3, 'Cu', 'vac')`. -/
noncomputable def ppwgCuVac : PPWG :=
  ⟨3e-3, 3e-3, some 5.813e7, ⟨1*eps_0, 0⟩, 1*mu_0,
   (1*mu_0)*3e-3/3e-3, (1*eps_0)*3e-3/3e-3⟩

theorem arcosh_one : arcosh 1 = 0 := by
  unfold arcosh
  norm_num

theorem arcosh_pos {x : ℝ} (hx : 1 < x) : 0 < arcosh x := by
  unfold arcosh
  apply Real.log_pos
  have h0 : (0:ℝ) ≤ Real.sqrt (x^2 - 1) := Real.sqrt_nonneg _
  linarith

theorem coax_init_ok : COAX.init 1e-3 4e-3 "Cu" "vac" = .ok coaxCuVac := by
  have h1 : ¬((1e-3:ℝ) = 0) := by norm_num
  have h2 : ¬((4e-3:ℝ)/1e-3 ≤ 0) := by norm_num
  simp only [COAX.init, cond_cap_cu, dielec_vac, if_neg h1, if_neg h2]
  rfl

theorem twwg_init_ok : TWWG.init 3.5e-3 1e-3 "Cu" "vac" = .ok twwgCuVac := by
  have h1 : ¬((1e-3:ℝ) = 0) := by norm_num
  have h2 : ¬((3.5e-3:ℝ)/(2*1e-3) < 1) := by norm_num
  have h3 : ¬(arcosh (3.5e-3/(2*1e-3)) = 0) := (arcosh_pos (by norm_num)).ne'
  simp only [TWWG.init, cond_cap_cu, dielec_vac, if_neg h1, if_neg h2, if_neg h3]
  rfl

theorem ppwg_init_ok : PPWG.init 3e-3 3e-3 "Cu" "vac" = .ok ppwgCuVac := by
  have h1 : ¬((3e-3:ℝ) = 0) := by norm_num
  simp only [PPWG.init, cond_cap_cu, dielec_vac, if_neg h1]
  rfl

/-- C7: conductivity lookup is case-insensitive — `cond s` equals `cond`
of the lowercased string for every string `s`, and `cond 'Cu'`,
`cond 'cu'`, `cond 'copper'` all return exactly `5.813e7`. -/
theorem C7_cond_case_insensitive :
    (∀ s : String, cond s = cond (pyLower s)) ∧
    cond "Cu" = some 5.813e7 ∧ cond "cu" = some 5.813e7 ∧
    cond "copper" = some 5.813e7 := by
  refine ⟨fun s => ?_, cond_cap_cu, cond_cu, cond_copper⟩
  unfold cond
  rw [pyLower_idem]

/-- C8: the permittivity lookup returns `eps1 - j*eps2`:
`dielec_const 'vac'` has real part `1*eps_0` and imaginary part `0`, and
`dielec_const 'teflon'` has real part `2.08*eps_0` and imaginary part
`-(2.08*eps_0*0.0004)`. -/
theorem C8_permittivity_values :
    (∃ c : ℂ, dielec_const "vac" = some c ∧ c.re = 1*eps_0 ∧ c.im = 0) ∧
    (∃ c : ℂ, dielec_const "teflon" = some c ∧ c.re = 2.08*eps_0 ∧
      c.im = -(2.08*eps_0*0.0004)) :=
  ⟨⟨_, dielec_vac, rfl, rfl⟩, ⟨_, dielec_teflon, rfl, rfl⟩⟩

/-- C6: every query applied to a frequency sequence of length N returns a
sequence of exactly length N, order-preserved, whose element at index i is
the scalar query applied to the frequency at index i. -/
theorem C6_queries_elementwise :
    ∀ (mc : COAX) (mt : TWWG) (mp : PPWG) (freq : List ℝ) (i : ℕ),
      ((mc.get_z0_list freq).length = freq.length ∧
        (mc.get_z0_list freq)[i]? = Option.map mc.get_z0 freq[i]?) ∧
      ((mc.get_gamma_list freq).length = freq.length ∧
        (mc.get_gamma_list freq)[i]? = Option.map mc.get_gamma freq[i]?) ∧
      ((mc.get_alpha_list freq).length = freq.length ∧
        (mc.get_alpha_list freq)[i]? = Option.map mc.get_alpha freq[i]?) ∧
      ((mc.get_beta_list freq).length = freq.length ∧
        (mc.get_beta_list freq)[i]? = Option.map mc.get_beta freq[i]?) ∧
      ((mt.get_z0_list freq).length = freq.length ∧
        (mt.get_z0_list freq)[i]? = Option.map mt.get_z0 freq[i]?) ∧
      ((mt.get_gamma_list freq).length = freq.length ∧
        (mt.get_gamma_list freq)[i]? = Option.map mt.get_gamma freq[i]?) ∧
      ((mt.get_alpha_list freq).length = freq.length ∧
        (mt.get_alpha_list freq)[i]? = Option.map mt.get_alpha freq[i]?) ∧
      ((mt.get_beta_list freq).length = freq.length ∧
        (mt.get_beta_list freq)[i]? = Option.map mt.get_beta freq[i]?) ∧
      ((mp.get_z0_list freq).length = freq.length ∧
        (mp.get_z0_list freq)[i]? = Option.map mp.get_z0 freq[i]?) ∧
      ((mp.get_gamma_list freq).length = freq.length ∧
        (mp.get_gamma_list freq)[i]? = Option.map mp.get_gamma freq[i]?) ∧
      ((mp.get_alpha_list freq).length = freq.length ∧
        (mp.get_alpha_list freq)[i]? = Option.map mp.get_alpha freq[i]?) ∧
      ((mp.get_beta_list freq).length = freq.length ∧
        (mp.get_beta_list freq)[i]? = Option.map mp.get_beta freq[i]?) := by
  intro mc mt mp freq i
  simp [COAX.get_z0_list, COAX.get_gamma_list, COAX.get_alpha_list,
    COAX.get_beta_list, TWWG.get_z0_list, TWWG.get_gamma_list,
    TWWG.get_alpha_list, TWWG.get_beta_list, PPWG.get_z0_list,
    PPWG.get_gamma_list, PPWG.get_alpha_list, PPWG.get_beta_list,
    List.getElem?_map]

/-- C9: queries mutate nothing — with the instance state threaded
explicitly, every query returns the model unchanged, and a second call on
the returned state yields the same result as the first. -/
theorem C9_queries_pure :
    ∀ (mc : COAX) (mt : TWWG) (mp : PPWG) (f : ℝ),
      ((mc.get_z0_s f).2 = mc ∧ ((mc.get_z0_s f).2.get_z0_s f).1 = (mc.get_z0_s f).1) ∧
      ((mc.get_gamma_s f).2 = mc ∧ ((mc.get_gamma_s f).2.get_gamma_s f).1 = (mc.get_gamma_s f).1) ∧
      ((mc.get_alpha_s f).2 = mc ∧ ((mc.get_alpha_s f).2.get_alpha_s f).1 = (mc.get_alpha_s f).1) ∧
      ((mc.get_beta_s f).2 = mc ∧ ((mc.get_beta_s f).2.get_beta_s f).1 = (mc.get_beta_s f).1) ∧
      ((mt.get_z0_s f).2 = mt ∧ ((mt.get_z0_s f).2.get_z0_s f).1 = (mt.get_z0_s f).1) ∧
      ((mt.get_gamma_s f).2 = mt ∧ ((mt.get_gamma_s f).2.get_gamma_s f).1 = (mt.get_gamma_s f).1) ∧
      ((mt.get_alpha_s f).2 = mt ∧ ((mt.get_alpha_s f).2.get_alpha_s f).1 = (mt.get_alpha_s f).1) ∧
      ((mt.get_beta_s f).2 = mt ∧ ((mt.get_beta_s f).2.get_beta_s f).1 = (mt.get_beta_s f).1) ∧
      ((mp.get_z0_s f).2 = mp ∧ ((mp.get_z0_s f).2.get_z0_s f).1 = (mp.get_z0_s f).1) ∧
      ((mp.get_gamma_s f).2 = mp ∧ ((mp.get_gamma_s f).2.get_gamma_s f).1 = (mp.get_gamma_s f).1) ∧
      ((mp.get_alpha_s f).2 = mp ∧ ((mp.get_alpha_s f).2.get_alpha_s f).1 = (mp.get_alpha_s f).1) ∧
      ((mp.get_beta_s f).2 = mp ∧ ((mp.get_beta_s f).2.get_beta_s f).1 = (mp.get_beta_s f).1) :=
  fun _ _ _ _ =>
    ⟨⟨rfl, rfl⟩, ⟨rfl, rfl⟩, ⟨rfl, rfl⟩, ⟨rfl, rfl⟩, ⟨rfl, rfl⟩, ⟨rfl, rfl⟩,
     ⟨rfl, rfl⟩, ⟨rfl, rfl⟩, ⟨rfl, rfl⟩, ⟨rfl, rfl⟩, ⟨rfl, rfl⟩, ⟨rfl, rfl⟩⟩

/-- C5: for every model and frequency, `get_alpha` is the real part of
`get_gamma` and `get_beta` its imaginary part, and whenever `get_gamma`
returns a value it is the principal complex square root of
`(R + jwL)*(G + jwC)`. -/
theorem C5_alpha_beta_from_gamma :
    ∀ (f : ℝ),
      (∀ mc : COAX, mc.get_alpha f = (mc.get_gamma f).map Complex.re ∧
        mc.get_beta f = (mc.get_gamma f).map Complex.im ∧
        ∀ z, mc.get_gamma f = .ok z → ∃ sigma, mc.sigma = some sigma ∧
          z = csqrt (((mc.Rq sigma (2*Real.pi*f) : ℝ) + Complex.I*((2*Real.pi*f : ℝ) : ℂ)*(mc.L : ℝ)) *
            ((mc.Gq (2*Real.pi*f) : ℝ) + Complex.I*((2*Real.pi*f : ℝ) : ℂ)*(mc.C : ℝ)))) ∧
      (∀ mt : TWWG, mt.get_alpha f = (mt.get_gamma f).map Complex.re ∧
        mt.get_beta f = (mt.get_gamma f).map Complex.im ∧
        ∀ z, mt.get_gamma f = .ok z → ∃ sigma, mt.sigma = some sigma ∧
          z = csqrt (((mt.Rq sigma (2*Real.pi*f) : ℝ) + Complex.I*((2*Real.pi*f : ℝ) : ℂ)*(mt.L : ℝ)) *
            ((mt.Gq (2*Real.pi*f) : ℝ) + Complex.I*((2*Real.pi*f : ℝ) : ℂ)*(mt.C : ℝ)))) ∧
      (∀ mp : PPWG, mp.get_alpha f = (mp.get_gamma f).map Complex.re ∧
        mp.get_beta f = (mp.get_gamma f).map Complex.im ∧
        ∀ z, mp.get_gamma f = .ok z → ∃ sigma, mp.sigma = some sigma ∧
          z = csqrt (((mp.Rq sigma (2*Real.pi*f) : ℝ) + Complex.I*((2*Real.pi*f : ℝ) : ℂ)*(mp.L : ℝ)) *
            ((mp.Gq (2*Real.pi*f) : ℝ) + Complex.I*((2*Real.pi*f : ℝ) : ℂ)*(mp.C : ℝ)))) := by
  intro f
  refine ⟨fun mc => ⟨rfl, rfl, fun z hz => ?_⟩,
          fun mt => ⟨rfl, rfl, fun z hz => ?_⟩,
          fun mp => ⟨rfl, rfl, fun z hz => ?_⟩⟩
  · unfold COAX.get_gamma at hz
    split at hz
    · exact Except.noConfusion hz
    · rename_i sigma heq
      split_ifs at hz <;>
        first
          | exact Except.noConfusion hz
          | (injection hz with hz; exact ⟨sigma, heq, hz.symm⟩)
  · unfold TWWG.get_gamma at hz
    split at hz
    · exact Except.noConfusion hz
    · rename_i sigma heq
      split_ifs at hz <;>
        first
          | exact Except.noConfusion hz
          | (injection hz with hz; exact ⟨sigma, heq, hz.symm⟩)
  · unfold PPWG.get_gamma at hz
    split at hz
    · exact Except.noConfusion hz
    · rename_i sigma heq
      split_ifs at hz <;>
        first
          | exact Except.noConfusion hz
          | (injection hz with hz; exact ⟨sigma, heq, hz.symm⟩)

/-- C1 (refuting the claim as stated): unknown material names do not raise
`UnknownMaterialError` at construction.  An unknown metal leaves
construction fully successful with `sigma = None` stored; an unknown
dielectric does abort construction, but with `AttributeError` (from
`None.real`), which is not an `UnknownMaterialError`. -/
theorem C1_unknown_material_silent :
    (∃ m : COAX, COAX.init 1e-3 4e-3 "unobtainium" "vac" = .ok m ∧ m.sigma = none) ∧
    (∃ m : TWWG, TWWG.init 3.5e-3 1e-3 "unobtainium" "vac" = .ok m ∧ m.sigma = none) ∧
    (∃ m : PPWG, PPWG.init 3e-3 3e-3 "unobtainium" "vac" = .ok m ∧ m.sigma = none) ∧
    COAX.init 1e-3 4e-3 "Cu" "unobtainium" = .error .attributeError ∧
    TWWG.init 3.5e-3 1e-3 "Cu" "unobtainium" = .error .attributeError ∧
    PPWG.init 3e-3 3e-3 "Cu" "unobtainium" = .error .attributeError ∧
    PyErr.attributeError ≠ PyErr.unknownMaterialError := by
  have h1 : ¬((1e-3:ℝ) = 0) := by norm_num
  have h2 : ¬((4e-3:ℝ)/1e-3 ≤ 0) := by norm_num
  have h3 : ¬((3.5e-3:ℝ)/(2*1e-3) < 1) := by norm_num
  have h4 : ¬(arcosh (3.5e-3/(2*1e-3)) = 0) := (arcosh_pos (by norm_num)).ne'
  have h5 : ¬((3e-3:ℝ) = 0) := by norm_num
  refine ⟨⟨⟨1e-3, 4e-3, none, ⟨1*eps_0, 0⟩, 1*mu_0,
      (1*mu_0)*Real.log (4e-3/1e-3)/(2*Real.pi),
      2*Real.pi*(1*eps_0)/Real.log (4e-3/1e-3)⟩, ?_, rfl⟩,
    ⟨⟨3.5e-3, 1e-3, none, ⟨1*eps_0, 0⟩, 1*mu_0,
      (1*mu_0)*arcosh (3.5e-3/(2*1e-3))/Real.pi,
      Real.pi*(1*eps_0)/arcosh (3.5e-3/(2*1e-3))⟩, ?_, rfl⟩,
    ⟨⟨3e-3, 3e-3, none, ⟨1*eps_0, 0⟩, 1*mu_0,
      (1*mu_0)*3e-3/3e-3, (1*eps_0)*3e-3/3e-3⟩, ?_, rfl⟩, ?_, ?_, ?_, by decide⟩
  · simp only [COAX.init, dielec_vac, if_neg h1, if_neg h2]
    rfl
  · simp only [TWWG.init, dielec_vac, if_neg h1, if_neg h3, if_neg h4]
    rfl
  · simp only [PPWG.init, dielec_vac, if_neg h5]
    rfl
  · simp only [COAX.init, dielec_unobtainium, if_neg h1, if_neg h2]
  · simp only [TWWG.init, dielec_unobtainium, if_neg h1, if_neg h3]
  · simp only [PPWG.init, dielec_unobtainium, if_neg h5]

/-- C2 counterexample: two-wire construction with `S = 1.5e-3 <= 2*a = 2e-3`
fails with the `math.acosh` domain `ValueError`, not with the
`InvalidGeometryError` the claim names (no such exception exists in the
code). -/
theorem C2_counterexample_no_invalid_geometry_error :
    TWWG.init 1.5e-3 1e-3 "Cu" "vac" = .error .valueError ∧
    TWWG.init 1.5e-3 1e-3 "Cu" "vac" ≠ .error .invalidGeometryError := by
  have h : TWWG.init 1.5e-3 1e-3 "Cu" "vac" = .error .valueError := by
    unfold TWWG.init
    rw [if_neg (by norm_num : ¬((1e-3:ℝ) = 0)),
      if_pos (by norm_num : (1.5e-3:ℝ)/(2*1e-3) < 1)]
  refine ⟨h, ?_⟩
  rw [h]
  intro hc
  injection hc with hc
  exact PyErr.noConfusion hc

/-- C2 (amended): two-wire construction with `0 < a` and `S <= 2*a` and a
recognized dielectric does fail at construction, but with the underlying
arithmetic exception — `ValueError` (math domain error) when `S < 2*a`,
`ZeroDivisionError` when `S = 2*a` — not with an `InvalidGeometryError`. -/
theorem C2_amended_geometry_failure :
    ∀ (S a : ℝ) (metal dielec : String), 0 < a → S ≤ 2*a →
      (dielec_const dielec).isSome →
      TWWG.init S a metal dielec =
        .error (if S < 2*a then PyErr.valueError else PyErr.zeroDivisionError) := by
  intro S a metal dielec ha hS hd
  unfold TWWG.init
  rw [if_neg ha.ne']
  by_cases hlt : S < 2*a
  · rw [if_pos ((div_lt_one (by linarith)).mpr hlt), if_pos hlt]
  · have heq : S = 2*a := le_antisymm hS (not_lt.mp hlt)
    have hdiv : S/(2*a) = 1 := by
      rw [heq]
      field_simp
    rw [if_neg (by rw [hdiv]; norm_num), if_neg hlt]
    obtain ⟨eps, heps⟩ := Option.isSome_iff_exists.mp hd
    rw [heps]
    simp [hdiv, arcosh_one]

theorem isSome_dielec_vac : (dielec_const "vac").isSome := by
  rw [dielec_vac]
  rfl

/-- Witness for C2's amended theorem at `S = 1.5e-3`, `a = 1e-3`,
copper/vacuum. -/
theorem C2_amended_geometry_failure_witness :
    (0:ℝ) < 1e-3 ∧ (1.5e-3:ℝ) ≤ 2*1e-3 ∧ (dielec_const "vac").isSome ∧
    TWWG.init 1.5e-3 1e-3 "Cu" "vac" =
      .error (if (1.5e-3:ℝ) < 2*1e-3 then PyErr.valueError else PyErr.zeroDivisionError) :=
  ⟨by norm_num, by norm_num, isSome_dielec_vac,
    C2_amended_geometry_failure 1.5e-3 1e-3 "Cu" "vac" (by norm_num) (by norm_num)
      isSome_dielec_vac⟩

/-- C3 (refuting the claim as stated): the `G` the queries use is computed
from the signed imaginary part of the stored permittivity (which the table
fills with `-eps2`), so for a lossy dielectric (teflon) it equals the
negative of the claimed closed form and is strictly negative. -/
theorem C3_G_negative_for_lossy_dielectric :
    ∃ m : COAX, COAX.init 1e-3 4e-3 "Cu" "teflon" = .ok m ∧
      m.Gq (2*Real.pi*1e9) =
        -(2*Real.pi*(2*Real.pi*1e9)*(2.08*eps_0*0.0004)/Real.log (4e-3/1e-3)) ∧
      m.Gq (2*Real.pi*1e9) < 0 := by
  have h1 : ¬((1e-3:ℝ) = 0) := by norm_num
  have h2 : ¬((4e-3:ℝ)/1e-3 ≤ 0) := by norm_num
  have hlog : 0 < Real.log (4e-3/1e-3) := Real.log_pos (by norm_num)
  have heps : (0:ℝ) < 2.08*eps_0*0.0004 := by norm_num [eps_0]
  have hw : (0:ℝ) < 2*Real.pi*(2*Real.pi*1e9) := by positivity
  refine ⟨⟨1e-3, 4e-3, some 5.813e7, ⟨2.08*eps_0, -(2.08*eps_0*0.0004)⟩, 1*mu_0,
      (1*mu_0)*Real.log (4e-3/1e-3)/(2*Real.pi),
      2*Real.pi*(2.08*eps_0)/Real.log (4e-3/1e-3)⟩, ?_, ?_, ?_⟩
  · simp only [COAX.init, cond_cap_cu, dielec_teflon, if_neg h1, if_neg h2]
  · show 2*Real.pi*(2*Real.pi*1e9)*(-(2.08*eps_0*0.0004))/Real.log (4e-3/1e-3) = _
    ring
  · show 2*Real.pi*(2*Real.pi*1e9)*(-(2.08*eps_0*0.0004))/Real.log (4e-3/1e-3) < 0
    apply div_neg_of_neg_of_pos _ hlog
    have := mul_neg_of_pos_of_neg hw (neg_neg_iff_pos.mpr heps)
    linarith [this]

/-- C4: for every successfully constructed coaxial model the static
per-unit-length parameters are `L = mu_0*log(b/a)/(2*pi)` and
`C = 2*pi*eps1/log(b/a)`, and for `a = 1e-3`, `b = 4e-3`, copper/vacuum
they are `mu_0*log 4/(2*pi)` and `2*pi*eps_0/log 4`, with no dependence on
any query frequency. -/
theorem C4_coax_static_LC :
    (∀ (a b : ℝ) (metal dielec : String) (m : COAX),
        COAX.init a b metal dielec = .ok m →
        m.L = mu_0*Real.log (b/a)/(2*Real.pi) ∧
        m.C = 2*Real.pi*m.eps.re/Real.log (b/a)) ∧
    (∃ m : COAX, COAX.init 1e-3 4e-3 "Cu" "vac" = .ok m ∧
        m.L = mu_0*Real.log 4/(2*Real.pi) ∧ m.C = 2*Real.pi*eps_0/Real.log 4) := by
  have h4 : (4e-3:ℝ)/1e-3 = 4 := by norm_num
  constructor
  · intro a b metal dielec m h
    unfold COAX.init at h
    split_ifs at h <;> try exact Except.noConfusion h
    split at h
    · exact Except.noConfusion h
    · injection h with h
      subst h
      exact ⟨by rw [one_mul], rfl⟩
  · refine ⟨coaxCuVac, coax_init_ok, ?_, ?_⟩
    · show (1*mu_0)*Real.log (4e-3/1e-3)/(2*Real.pi) = _
      rw [h4, one_mul]
    · show 2*Real.pi*(1*eps_0)/Real.log (4e-3/1e-3) = _
      rw [h4, one_mul]

/-- Witness for C4's universal part at the concrete coaxial line of
`wg_test.py`. -/
theorem C4_coax_static_LC_witness :
    ∃ m : COAX, COAX.init 1e-3 4e-3 "Cu" "vac" = .ok m ∧
      m.L = mu_0*Real.log (4e-3/1e-3)/(2*Real.pi) ∧
      m.C = 2*Real.pi*m.eps.re/Real.log (4e-3/1e-3) :=
  ⟨coaxCuVac, coax_init_ok,
    C4_coax_static_LC.1 1e-3 4e-3 "Cu" "vac" coaxCuVac coax_init_ok⟩

/-- C10: at query frequency 0 the surface resistance, R and G of every
(validly constructed) model are exactly 0, the denominator `G + jwC` of the
impedance formula is exactly zero, and `get_z0(0)` yields no finite complex
number (numpy's unguarded `0/0` complex division produces `nan`). -/
theorem C10_zero_frequency_nonfinite :
    ∀ (mc : COAX) (mt : TWWG) (mp : PPWG) (sc st sp : ℝ),
      mc.sigma = some sc → 0 < sc → mc.a ≠ 0 → mc.b ≠ 0 → 0 < mc.b/mc.a →
      mt.sigma = some st → 0 < st → mt.a ≠ 0 → 1 < mt.S/(2*mt.a) →
      mp.sigma = some sp → 0 < sp → mp.T ≠ 0 → mp.S ≠ 0 →
      (Rs_line mc.mu sc (2*Real.pi*0) = 0 ∧ mc.Rq sc (2*Real.pi*0) = 0 ∧
        mc.Gq (2*Real.pi*0) = 0 ∧ mc.get_z0 0 = .error .nonFinite) ∧
      (Rs_line mt.mu st (2*Real.pi*0) = 0 ∧ mt.Rq st (2*Real.pi*0) = 0 ∧
        mt.Gq (2*Real.pi*0) = 0 ∧ mt.get_z0 0 = .error .nonFinite) ∧
      (Rs_line mp.mu sp (2*Real.pi*0) = 0 ∧ mp.Rq sp (2*Real.pi*0) = 0 ∧
        mp.Gq (2*Real.pi*0) = 0 ∧ mp.get_z0 0 = .error .nonFinite) := by
  intro mc mt mp sc st sp hc1 hc2 hc3 hc4 hc5 ht1 ht2 ht3 ht4 hp1 hp2 hp3 hp4
  have w0 : (2*Real.pi*0 : ℝ) = 0 := by ring
  have rs0 : ∀ mu s : ℝ, Rs_line mu s (2*Real.pi*0) = 0 := by
    intro mu s
    unfold Rs_line
    rw [w0]
    simp
  have gc : mc.Gq (2*Real.pi*0) = 0 := by
    unfold COAX.Gq
    ring
  have gt : mt.Gq (2*Real.pi*0) = 0 := by
    unfold TWWG.Gq
    ring
  have gp : mp.Gq (2*Real.pi*0) = 0 := by
    unfold PPWG.Gq
    ring
  have rc : mc.Rq sc (2*Real.pi*0) = 0 := by
    unfold COAX.Rq
    rw [rs0]
    ring
  have rt : mt.Rq st (2*Real.pi*0) = 0 := by
    unfold TWWG.Rq
    rw [rs0]
    ring
  have rp : mp.Rq sp (2*Real.pi*0) = 0 := by
    unfold PPWG.Rq
    rw [rs0]
    ring
  have hno : ∀ s : ℝ, 0 < s → ∀ mu : ℝ, ¬((2*Real.pi*0)*mu/(2*s) < 0) := by
    intro s _ mu
    rw [w0]
    simp
  refine ⟨⟨rs0 mc.mu sc, rc, gc, ?_⟩, ⟨rs0 mt.mu st, rt, gt, ?_⟩,
    ⟨rs0 mp.mu sp, rp, gp, ?_⟩⟩
  · have g1 : ¬(mc.a = 0 ∨ mc.b = 0) := by
      push_neg
      exact ⟨hc3, hc4⟩
    have g2 : ¬(mc.b/mc.a ≤ 0) := not_le.mpr hc5
    have g3 : ¬(sc = 0 ∨ (2*Real.pi*0)*mc.mu/(2*sc) < 0) := by
      push_neg
      exact ⟨hc2.ne', not_lt.mp (hno sc hc2 mc.mu)⟩
    have g4 : ((mc.Gq (2*Real.pi*0) : ℝ) : ℂ) + Complex.I*((2*Real.pi*0 : ℝ) : ℂ)*(mc.C : ℝ) = 0 := by
      rw [gc, w0]
      simp
    simp only [COAX.get_z0, hc1, if_neg g1, if_neg g2, if_neg g3, if_pos g4]
  · have g1 : ¬(mt.S/(2*mt.a) < 1) := not_lt.mpr ht4.le
    have g3 : ¬(arcosh (mt.S/(2*mt.a)) = 0 ∨ st = 0 ∨ (2*Real.pi*0)*mt.mu/(2*st) < 0) := by
      push_neg
      exact ⟨(arcosh_pos ht4).ne', ht2.ne', not_lt.mp (hno st ht2 mt.mu)⟩
    have g4 : ((mt.Gq (2*Real.pi*0) : ℝ) : ℂ) + Complex.I*((2*Real.pi*0 : ℝ) : ℂ)*(mt.C : ℝ) = 0 := by
      rw [gt, w0]
      simp
    simp only [TWWG.get_z0, ht1, if_neg ht3, if_neg g1, if_neg g3, if_pos g4]
  · have g1 : ¬(mp.T = 0 ∨ mp.S = 0 ∨ sp = 0 ∨ (2*Real.pi*0)*mp.mu/(2*sp) < 0) := by
      push_neg
      exact ⟨hp3, hp4, hp2.ne', not_lt.mp (hno sp hp2 mp.mu)⟩
    have g4 : ((mp.Gq (2*Real.pi*0) : ℝ) : ℂ) + Complex.I*((2*Real.pi*0 : ℝ) : ℂ)*(mp.C : ℝ) = 0 := by
      rw [gp, w0]
      simp
    simp only [PPWG.get_z0, hp1, if_neg g1, if_pos g4]

/-- Witness for C10 at the three concrete `wg_test.py` models. -/
theorem C10_zero_frequency_nonfinite_witness :
    (Rs_line coaxCuVac.mu 5.813e7 (2*Real.pi*0) = 0 ∧
      coaxCuVac.Rq 5.813e7 (2*Real.pi*0) = 0 ∧
      coaxCuVac.Gq (2*Real.pi*0) = 0 ∧ coaxCuVac.get_z0 0 = .error .nonFinite) ∧
    (Rs_line twwgCuVac.mu 5.813e7 (2*Real.pi*0) = 0 ∧
      twwgCuVac.Rq 5.813e7 (2*Real.pi*0) = 0 ∧
      twwgCuVac.Gq (2*Real.pi*0) = 0 ∧ twwgCuVac.get_z0 0 = .error .nonFinite) ∧
    (Rs_line ppwgCuVac.mu 5.813e7 (2*Real.pi*0) = 0 ∧
      ppwgCuVac.Rq 5.813e7 (2*Real.pi*0) = 0 ∧
      ppwgCuVac.Gq (2*Real.pi*0) = 0 ∧ ppwgCuVac.get_z0 0 = .error .nonFinite) :=
  C10_zero_frequency_nonfinite coaxCuVac twwgCuVac ppwgCuVac 5.813e7 5.813e7 5.813e7
    rfl (by norm_num) (by norm_num [coaxCuVac]) (by norm_num [coaxCuVac])
    (by norm_num [coaxCuVac])
    rfl (by norm_num) (by norm_num [twwgCuVac]) (by norm_num [twwgCuVac])
    rfl (by norm_num) (by norm_num [ppwgCuVac]) (by norm_num [ppwgCuVac])

/-- Witness for C5 at frequency 1 Hz on the three concrete `wg_test.py`
models. -/
theorem C5_alpha_beta_from_gamma_witness :
    (coaxCuVac.get_alpha 1 = (coaxCuVac.get_gamma 1).map Complex.re ∧
      coaxCuVac.get_beta 1 = (coaxCuVac.get_gamma 1).map Complex.im ∧
      ∃ z, coaxCuVac.get_gamma 1 = .ok z ∧ ∃ sigma, coaxCuVac.sigma = some sigma ∧
        z = csqrt (((coaxCuVac.Rq sigma (2*Real.pi*1) : ℝ) + Complex.I*((2*Real.pi*1 : ℝ) : ℂ)*(coaxCuVac.L : ℝ)) *
          ((coaxCuVac.Gq (2*Real.pi*1) : ℝ) + Complex.I*((2*Real.pi*1 : ℝ) : ℂ)*(coaxCuVac.C : ℝ)))) ∧
    (twwgCuVac.get_alpha 1 = (twwgCuVac.get_gamma 1).map Complex.re ∧
      twwgCuVac.get_beta 1 = (twwgCuVac.get_gamma 1).map Complex.im ∧
      ∃ z, twwgCuVac.get_gamma 1 = .ok z ∧ ∃ sigma, twwgCuVac.sigma = some sigma ∧
        z = csqrt (((twwgCuVac.Rq sigma (2*Real.pi*1) : ℝ) + Complex.I*((2*Real.pi*1 : ℝ) : ℂ)*(twwgCuVac.L : ℝ)) *
          ((twwgCuVac.Gq (2*Real.pi*1) : ℝ) + Complex.I*((2*Real.pi*1 : ℝ) : ℂ)*(twwgCuVac.C : ℝ)))) ∧
    (ppwgCuVac.get_alpha 1 = (ppwgCuVac.get_gamma 1).map Complex.re ∧
      ppwgCuVac.get_beta 1 = (ppwgCuVac.get_gamma 1).map Complex.im ∧
      ∃ z, ppwgCuVac.get_gamma 1 = .ok z ∧ ∃ sigma, ppwgCuVac.sigma = some sigma ∧
        z = csqrt (((ppwgCuVac.Rq sigma (2*Real.pi*1) : ℝ) + Complex.I*((2*Real.pi*1 : ℝ) : ℂ)*(ppwgCuVac.L : ℝ)) *
          ((ppwgCuVac.Gq (2*Real.pi*1) : ℝ) + Complex.I*((2*Real.pi*1 : ℝ) : ℂ)*(ppwgCuVac.C : ℝ)))) := by
  obtain ⟨hcx, htw, hpp⟩ := C5_alpha_beta_from_gamma 1
  obtain ⟨hca, hcb, hcg⟩ := hcx coaxCuVac
  obtain ⟨hta, htb, htg⟩ := htw twwgCuVac
  obtain ⟨hpa, hpb, hpg⟩ := hpp ppwgCuVac
  have hmuc : (0:ℝ) ≤ (2*Real.pi*1)*coaxCuVac.mu/(2*5.813e7) := by
    apply div_nonneg _ (by norm_num)
    apply mul_nonneg (by positivity)
    norm_num [coaxCuVac, mu_0]
  have hmut : (0:ℝ) ≤ (2*Real.pi*1)*twwgCuVac.mu/(2*5.813e7) := by
    apply div_nonneg _ (by norm_num)
    apply mul_nonneg (by positivity)
    norm_num [twwgCuVac, mu_0]
  have hmup : (0:ℝ) ≤ (2*Real.pi*1)*ppwgCuVac.mu/(2*5.813e7) := by
    apply div_nonneg _ (by norm_num)
    apply mul_nonneg (by positivity)
    norm_num [ppwgCuVac, mu_0]
  have hzc : coaxCuVac.get_gamma 1 =
      .ok (csqrt (((coaxCuVac.Rq 5.813e7 (2*Real.pi*1) : ℝ) +
          Complex.I*((2*Real.pi*1 : ℝ) : ℂ)*(coaxCuVac.L : ℝ)) *
        ((coaxCuVac.Gq (2*Real.pi*1) : ℝ) +
          Complex.I*((2*Real.pi*1 : ℝ) : ℂ)*(coaxCuVac.C : ℝ)))) := by
    have g1 : ¬(coaxCuVac.a = 0 ∨ coaxCuVac.b = 0) := by norm_num [coaxCuVac]
    have g2 : ¬(coaxCuVac.b/coaxCuVac.a ≤ 0) := by norm_num [coaxCuVac]
    have g3 : ¬((5.813e7:ℝ) = 0 ∨ (2*Real.pi*1)*coaxCuVac.mu/(2*5.813e7) < 0) := by
      push_neg
      exact ⟨by norm_num, hmuc⟩
    simp only [COAX.get_gamma, show coaxCuVac.sigma = some 5.813e7 from rfl,
      if_neg g1, if_neg g2, if_neg g3]
  have hzt : twwgCuVac.get_gamma 1 =
      .ok (csqrt (((twwgCuVac.Rq 5.813e7 (2*Real.pi*1) : ℝ) +
          Complex.I*((2*Real.pi*1 : ℝ) : ℂ)*(twwgCuVac.L : ℝ)) *
        ((twwgCuVac.Gq (2*Real.pi*1) : ℝ) +
          Complex.I*((2*Real.pi*1 : ℝ) : ℂ)*(twwgCuVac.C : ℝ)))) := by
    have g1 : ¬(twwgCuVac.a = 0) := by norm_num [twwgCuVac]
    have g2 : ¬(twwgCuVac.S/(2*twwgCuVac.a) < 1) := by norm_num [twwgCuVac]
    have g3 : ¬(arcosh (twwgCuVac.S/(2*twwgCuVac.a)) = 0 ∨ (5.813e7:ℝ) = 0 ∨
        (2*Real.pi*1)*twwgCuVac.mu/(2*5.813e7) < 0) := by
      push_neg
      refine ⟨(arcosh_pos (by norm_num [twwgCuVac])).ne', by norm_num, hmut⟩
    simp only [TWWG.get_gamma, show twwgCuVac.sigma = some 5.813e7 from rfl,
      if_neg g1, if_neg g2, if_neg g3]
  have hzp : ppwgCuVac.get_gamma 1 =
      .ok (csqrt (((ppwgCuVac.Rq 5.813e7 (2*Real.pi*1) : ℝ) +
          Complex.I*((2*Real.pi*1 : ℝ) : ℂ)*(ppwgCuVac.L : ℝ)) *
        ((ppwgCuVac.Gq (2*Real.pi*1) : ℝ) +
          Complex.I*((2*Real.pi*1 : ℝ) : ℂ)*(ppwgCuVac.C : ℝ)))) := by
    have g1 : ¬(ppwgCuVac.T = 0 ∨ ppwgCuVac.S = 0 ∨ (5.813e7:ℝ) = 0 ∨
        (2*Real.pi*1)*ppwgCuVac.mu/(2*5.813e7) < 0) := by
      push_neg
      refine ⟨by norm_num [ppwgCuVac], by norm_num [ppwgCuVac], by norm_num,
        hmup⟩
    simp only [PPWG.get_gamma, show ppwgCuVac.sigma = some 5.813e7 from rfl,
      if_neg g1]
  exact ⟨⟨hca, hcb, _, hzc, hcg _ hzc⟩, ⟨hta, htb, _, hzt, htg _ hzt⟩,
    ⟨hpa, hpb, _, hzp, hpg _ hzp⟩⟩

end Waveguides
